import Mathlib

set_option maxRecDepth 10000

/-
Verification of the sandbox preview and scroll synchronization engine of the
md-ai repository.  The definitions below are a shallow embedding of the two
source files

  apps/web/src/components/editor/html-editor/HtmlRenderBase.vue
  apps/web/src/components/editor/html-editor/PreviewSandboxStack.vue

faithful to the TypeScript/Vue code: pure functions become Lean functions,
the mutable iframe/contentDocument and the stack's shared scroll state are
modelled by explicit state passing, and JavaScript failure (a value that does
not stringify) is modelled by Except.
-/

namespace MdAi

/-- A JavaScript runtime value appearing as a declaration value of a style
override rule.  Template-literal interpolation coerces strings and numbers to
text, while a Symbol raises a TypeError; the Symbol case models the
"value of unexpected type" failure the try/catch in generateStyleText guards
against. -/
inductive JSValue where
  | str (s : String)
  | num (n : Int)
  | sym
deriving DecidableEq

/-- JavaScript ToString as invoked by template-literal interpolation:
strings pass through, numbers print, a Symbol throws a TypeError. -/
def jsToString : JSValue → Except String String
  | JSValue.str s => Except.ok s
  | JSValue.num n => Except.ok (toString n)
  | JSValue.sym => Except.error "TypeError: Cannot convert a Symbol value to a string"

/-- A style override rule as stored in usePreviewStyleStore: a selector and a
list of (property name, value) declarations (field name `styles` as in the
source, `override.styles`). -/
structure StyleOverrideRule where
  selector : String
  styles : List (String × JSValue)
deriving DecidableEq

/-- Character-level model of
`key.replace(/([A-Z])/g, "-$1").toLowerCase()` (HtmlRenderBase.vue line 30):
each ASCII uppercase letter becomes a hyphen followed by its lowercase form,
all other characters are lowercased (ASCII model of toLowerCase). -/
def hyphenChars : List Char → List Char
  | [] => []
  | c :: cs =>
      if c.isUpper then '-' :: c.toLower :: hyphenChars cs
      else c.toLower :: hyphenChars cs

/-- The hyphen-case conversion applied to one property name. -/
def hyphenateKey (k : String) : String := String.mk (hyphenChars k.data)

/-- One declaration line
`  ${key.replace(...).toLowerCase()}: ${value} !important;`
(HtmlRenderBase.vue line 30); fails when the value does not stringify. -/
def declLine (k : String) (v : JSValue) : Except String String := do
  let vs ← jsToString v
  return "  " ++ hyphenateKey k ++ ": " ++ vs ++ " !important;"

/-- The `.map` over `Object.entries(override.styles)` (lines 29–31); the
first throwing callback aborts the whole map, as in JavaScript. -/
def declLinesCore : List (String × JSValue) → Except String (List String)
  | [] => Except.ok []
  | kv :: rest => do
    let l ← declLine kv.1 kv.2
    let ls ← declLinesCore rest
    return l :: ls

/-- One rule block `${override.selector} {\n${styles}\n}` (lines 29–32),
the declaration lines joined with a newline. -/
def ruleBlock (r : StyleOverrideRule) : Except String String := do
  let ls ← declLinesCore r.styles
  return r.selector ++ " \x7b\n" ++ String.intercalate "\n" ls ++ "\n\x7d"

/-- The `.map` over the rule list (lines 27–33). -/
def ruleBlocksCore : List StyleOverrideRule → Except String (List String)
  | [] => Except.ok []
  | r :: rest => do
    let b ← ruleBlock r
    let bs ← ruleBlocksCore rest
    return b :: bs

/-- The body of the try block of generateStyleText (lines 26–34): the rule
blocks joined with a blank line. -/
def generateStyleTextCore (rules : List StyleOverrideRule) : Except String String := do
  let blocks ← ruleBlocksCore rules
  return String.intercalate "\n\n" blocks

/-- generateStyleText (lines 24–40) together with its console.error output:
on success the generated stylesheet text and no log entry, on any internal
failure the empty string and exactly one log entry (the catch branch,
lines 36–39). -/
def generateStyleTextLogged (rules : List StyleOverrideRule) : String × List String :=
  match generateStyleTextCore rules with
  | Except.ok s => (s, [])
  | Except.error e => ("", ["Failed to generate style overrides: " ++ e])

/-- The string generateStyleText returns to its caller. -/
def generateStyleText (rules : List StyleOverrideRule) : String :=
  (generateStyleTextLogged rules).1

/-- Success-path text of one declaration value (what jsToString yields when
it does not throw); used to state the shape of the compiler output. -/
def strOfValue : JSValue → String
  | JSValue.str s => s
  | JSValue.num n => toString n
  | JSValue.sym => ""

/-- Success-path text of one declaration line. -/
def declLineStr (k : String) (v : JSValue) : String :=
  "  " ++ hyphenateKey k ++ ": " ++ strOfValue v ++ " !important;"

/-- Success-path text of one rule block. -/
def ruleBlockStr (r : StyleOverrideRule) : String :=
  r.selector ++ " \x7b\n"
    ++ String.intercalate "\n" (r.styles.map fun kv => declLineStr kv.1 kv.2)
    ++ "\n\x7d"

/-- The observable state of the iframe's contentDocument used by the
component: the two scroll offsets and the textContent of the style element
with id `preview-style-overrides` (none while that element has not been
created). -/
structure IframeDocState where
  docScrollTop : Nat
  bodyScrollTop : Nat
  injectedStyleText : Option String
deriving DecidableEq

/-- A render surface: its rendering context is `none` until the iframe's
contentDocument exists (before the load event / ready signal). -/
structure RenderSurface where
  context : Option IframeDocState
deriving DecidableEq

/-- `doc.documentElement.scrollTop || doc.body.scrollTop`
(HtmlRenderBase.vue lines 175 and 190): the document-level offset unless it
is 0 (falsy), else the body-level offset.  This is both the position the
scroll listener emits and the current offset the scrollTop watcher compares
against. -/
def effectiveScrollTop (ctx : IframeDocState) : Nat :=
  if ctx.docScrollTop ≠ 0 then ctx.docScrollTop else ctx.bodyScrollTop

/-- `Math.abs(a - b)` on non-negative scroll offsets. -/
def natAbsDiff (a b : Nat) : Nat := ((a : Int) - (b : Int)).natAbs

/-- The watch on props.scrollTop (HtmlRenderBase.vue lines 186–195).  Returns
the new surface state together with the scroll positions the surface emits as
a consequence: when the write happens it moves the effective offset (the
difference is nonzero), so the context fires its scroll event and the
listener of line 175 emits the new effective offset; otherwise nothing is
written and nothing is emitted. -/
def watchScrollTop (newVal : Option Nat) (s : RenderSurface) : RenderSurface × List Nat :=
  match s.context, newVal with
  | none, _ => (s, [])
  | some _, none => (s, [])
  | some ctx, some v =>
      if natAbsDiff (effectiveScrollTop ctx) v > 2 then
        let ctx' : IframeDocState := { ctx with docScrollTop := v, bodyScrollTop := v }
        ({ context := some ctx' }, [effectiveScrollTop ctx'])
      else (s, [])

/-- updateIframeStyles (HtmlRenderBase.vue lines 43–57): without a
contentDocument it returns at once; otherwise it gets or creates the style
element with id `preview-style-overrides` and overwrites its textContent with
the freshly compiled style text (replacing, never appending). -/
def updateIframeStyles (rules : List StyleOverrideRule) (s : RenderSurface) : RenderSurface :=
  match s.context with
  | none => s
  | some ctx =>
      { context := some { ctx with injectedStyleText := some (generateStyleText rules) } }

/-- Template segment of generateFullHtml before the `${styleOverridesText}`
interpolation (HtmlRenderBase.vue lines 68–102). -/
def htmlSeg1 : String :=
  "\n    <!DOCTYPE html>\n    <html>\n    <head>\n      <meta charset=\"UTF-8\">\n      <meta name=\"viewport\" content=\"width=device-width, initial-scale=1.0\">\n      <style>\n        * \x7b\n          margin: 0;\n          padding: 0;\n          box-sizing: border-box;\n        \x7d\n        body \x7b\n          font-family: -apple-system, BlinkMacSystemFont, \x27Segoe UI\x27, \x27Roboto\x27, \x27Oxygen\x27, \x27Ubuntu\x27, \x27Cantarell\x27, \x27Fira Sans\x27, \x27Droid Sans\x27, \x27Helvetica Neue\x27, sans-serif;\n          padding: 16px;\n          overflow-y: auto;\n          background: transparent;\n        \x7d\n        img \x7b\n          max-width: 100%;\n          height: auto;\n          border-radius: 8px;\n        \x7d\n        pre \x7b\n          overflow-x: auto;\n          padding: 1em;\n          background: #f5f5f5;\n          border-radius: 8px;\n        \x7d\n        code \x7b\n          font-family: \x27JetBrains Mono\x27, \x27Fira Code\x27, \x27Consolas\x27, \x27Monaco\x27, \x27Courier New\x27, monospace;\n        \x7d\n        \n        /* 样式覆盖注入 */\n        "

/-- Template segment between the style-override interpolation and the
modified-marker conditional (lines 102–105). -/
def htmlSeg2 : String :=
  "\n\n        /* 修改标记样式 (仅在 showModifiedMarkers 为 true 时生效) */\n        "

/-- The modified-marker CSS block (lines 106–139): dashed outline, tinted
gradient background, fixed-position badge, and the sandboxPulse keyframe
animation, scoped to the `[data-sandbox-modified]` attribute selector. -/
def markerCss : String :=
  "\n        [data-sandbox-modified] \x7b\n          position: relative;\n          outline: 2px dashed rgba(251, 191, 36, 0.8) !important;\n          outline-offset: 4px;\n          background: linear-gradient(135deg, rgba(251, 191, 36, 0.1) 0%, rgba(245, 158, 11, 0.05) 100%) !important;\n          border-radius: 8px;\n          animation: sandboxPulse 2s ease-in-out infinite;\n        \x7d\n        [data-sandbox-modified]::before \x7b\n          content: \x27已修改\x27;\n          position: absolute;\n          top: -10px;\n          right: -10px;\n          font-size: 10px;\n          padding: 3px 8px;\n          background: linear-gradient(135deg, #fbbf24, #f59e0b);\n          color: white;\n          border-radius: 6px;\n          font-weight: 600;\n          box-shadow: 0 2px 8px rgba(251, 191, 36, 0.3);\n          z-index: 10;\n        \x7d\n        @keyframes sandboxPulse \x7b\n          0%, 100% \x7b\n            outline-color: rgba(251, 191, 36, 0.6);\n            box-shadow: 0 0 0 0 rgba(251, 191, 36, 0.2);\n          \x7d\n          50% \x7b\n            outline-color: rgba(251, 191, 36, 1);\n            box-shadow: 0 0 0 4px rgba(251, 191, 36, 0.1);\n          \x7d\n        \x7d\n        "

/-- Template segment between the marker conditional and the `${content}`
interpolation (lines 140–153). -/
def htmlSeg3 : String :=
  "\n\n        /* 隐藏滚动条但保留滚动功能 */\n        body::-webkit-scrollbar \x7b\n          display: none;\n        \x7d\n        body \x7b\n          -ms-overflow-style: none;\n          scrollbar-width: none;\n        \x7d\n      </style>\n    </head>\n    <body id=\"html-output\">\n      "

/-- Template segment after the content interpolation (lines 153–156). -/
def htmlSeg4 : String :=
  "\n    </body>\n    </html>\n  "

/-- generateFullHtml (HtmlRenderBase.vue lines 65–157): the srcdoc payload.
It interpolates the compiled style text (recomputed here because line 66
calls generateStyleText, which reads the reactive style store), the
modified-marker CSS exactly when showModifiedMarkers is true (lines 105–140),
and the document content. -/
def generateFullHtml (rules : List StyleOverrideRule) (showModifiedMarkers : Bool)
    (content : String) : String :=
  htmlSeg1 ++ generateStyleText rules ++ htmlSeg2
    ++ (if showModifiedMarkers then markerCss else "")
    ++ htmlSeg3 ++ content ++ htmlSeg4

/-- Whether `needle` occurs at the head of the second list. -/
def startsWithChars : List Char → List Char → Bool
  | [], _ => true
  | _ :: _, [] => false
  | c :: cs, d :: ds => c == d && startsWithChars cs ds

/-- Whether `needle` occurs anywhere in the second list. -/
def hasSubChars (needle : List Char) : List Char → Bool
  | [] => startsWithChars needle []
  | d :: ds => startsWithChars needle (d :: ds) || hasSubChars needle ds

/-- Executable substring test on strings. -/
def hasSubstr (needle hay : String) : Bool := hasSubChars needle.data hay.data

/-- The two scroll-reporting surfaces mounted by PreviewSandboxStack:
the editable preview (HtmlElementEditBar, lines 58–62) and the sandbox
render surface (HtmlRenderBase, lines 101–106). -/
inductive SurfaceId where
  | editBar
  | renderBase
deriving DecidableEq

/-- PreviewSandboxStack state: the shared scroll position (`sharedScrollTop`,
line 21) and whether the sandbox panel is mounted (`v-if="isSandboxActive"`,
line 66). -/
structure StackState where
  sharedScrollTop : Nat
  isSandboxActive : Bool
deriving DecidableEq

/-- handleScroll (PreviewSandboxStack.vue lines 23–25): the one handler both
surfaces' scroll events are wired to; it overwrites the shared position. -/
def handleScroll (st : StackState) (scrollTop : Nat) : StackState :=
  { st with sharedScrollTop := scrollTop }

/-- The surfaces mounted by the stack's template: the edit bar always, the
sandbox render surface only while the sandbox is active. -/
def mountedSurfaces (st : StackState) : List SurfaceId :=
  SurfaceId.editBar :: (if st.isSandboxActive then [SurfaceId.renderBase] else [])

/-- The `:scroll-top="sharedScrollTop"` prop binding (lines 60 and 103):
every mounted surface, the last reporter included, receives the same shared
position. -/
def scrollTopBinding (st : StackState) (_sid : SurfaceId) : Nat :=
  st.sharedScrollTop

/-- A two-surface synchronization system: the stack's shared position and the
two render surfaces it propagates it to. -/
structure SyncSystem where
  sharedScrollTop : Nat
  surfA : RenderSurface
  surfB : RenderSurface
deriving DecidableEq

/-- A surface's scroll report arriving at handleScroll: last write wins. -/
def reportScroll (sys : SyncSystem) (t : Nat) : SyncSystem :=
  { sys with sharedScrollTop := t }

/-- Folding a burst of reports into the shared position in arrival order. -/
def lastWrite (a : Nat) (writes : List Nat) : Nat :=
  writes.foldl (fun _ p => p) a

/-- One propagation round: the shared position reaches both surfaces'
scrollTop watchers; every position a surface re-emits is fed back through
handleScroll in arrival order. -/
def syncRound (sys : SyncSystem) : SyncSystem :=
  let ra := watchScrollTop (some sys.sharedScrollTop) sys.surfA
  let rb := watchScrollTop (some sys.sharedScrollTop) sys.surfB
  { sharedScrollTop := lastWrite sys.sharedScrollTop (ra.2 ++ rb.2)
    surfA := ra.1
    surfB := rb.1 }

/-- Writing the same position into both scroll offsets makes it the
effective offset. -/
theorem effectiveScrollTop_set (ctx : IframeDocState) (p : Nat) :
    effectiveScrollTop { ctx with docScrollTop := p, bodyScrollTop := p } = p := by
  simp [effectiveScrollTop]

theorem natAbsDiff_self (a : Nat) : natAbsDiff a a = 0 := by
  simp [natAbsDiff]

/-- Inside the dead zone the scrollTop watcher writes nothing and emits
nothing. -/
theorem watchScrollTop_deadzone (ctx : IframeDocState) (p : Nat)
    (h : natAbsDiff (effectiveScrollTop ctx) p ≤ 2) :
    watchScrollTop (some p) ⟨some ctx⟩ = (⟨some ctx⟩, []) := by
  have hng : ¬ natAbsDiff (effectiveScrollTop ctx) p > 2 := by omega
  simp [watchScrollTop, hng]

/-- Beyond the dead zone the watcher writes the new position into both
offsets and the surface re-emits exactly that position. -/
theorem watchScrollTop_write (ctx : IframeDocState) (p : Nat)
    (h : natAbsDiff (effectiveScrollTop ctx) p > 2) :
    watchScrollTop (some p) ⟨some ctx⟩
      = (⟨some { ctx with docScrollTop := p, bodyScrollTop := p }⟩, [p]) := by
  simp [watchScrollTop, h, effectiveScrollTop_set]

/-- A system whose two surfaces are both within the dead zone of the shared
position is a fixed point of the propagation round. -/
theorem syncRound_stable (sh : Nat) (ctxA ctxB : IframeDocState)
    (h1 : natAbsDiff (effectiveScrollTop ctxA) sh ≤ 2)
    (h2 : natAbsDiff (effectiveScrollTop ctxB) sh ≤ 2) :
    syncRound ⟨sh, ⟨some ctxA⟩, ⟨some ctxB⟩⟩ = ⟨sh, ⟨some ctxA⟩, ⟨some ctxB⟩⟩ := by
  simp [syncRound, watchScrollTop_deadzone _ _ h1, watchScrollTop_deadzone _ _ h2, lastWrite]

/-- After a report whose position equals surface A's effective offset, one
propagation round reaches a fixed point of further rounds. -/
theorem syncRound_after_report (ctxA ctxB : IframeDocState) (p : Nat)
    (hA : effectiveScrollTop ctxA = p) :
    syncRound (syncRound ⟨p, ⟨some ctxA⟩, ⟨some ctxB⟩⟩)
      = syncRound ⟨p, ⟨some ctxA⟩, ⟨some ctxB⟩⟩ := by
  have hA2 : natAbsDiff (effectiveScrollTop ctxA) p ≤ 2 := by
    rw [hA, natAbsDiff_self]
    omega
  by_cases hB : natAbsDiff (effectiveScrollTop ctxB) p > 2
  · have e1 : syncRound ⟨p, ⟨some ctxA⟩, ⟨some ctxB⟩⟩
        = ⟨p, ⟨some ctxA⟩, ⟨some { ctxB with docScrollTop := p, bodyScrollTop := p }⟩⟩ := by
      simp [syncRound, watchScrollTop_deadzone _ _ hA2, watchScrollTop_write _ _ hB, lastWrite]
    rw [e1]
    exact syncRound_stable p ctxA _ hA2
      (by rw [effectiveScrollTop_set, natAbsDiff_self]; omega)
  · have hB2 : natAbsDiff (effectiveScrollTop ctxB) p ≤ 2 := by omega
    rw [syncRound_stable p ctxA ctxB hA2 hB2]
    exact syncRound_stable p ctxA ctxB hA2 hB2

/-- A non-Symbol value yields exactly the success-path declaration line. -/
theorem declLine_ok (k : String) (v : JSValue) (h : v ≠ JSValue.sym) :
    declLine k v = Except.ok (declLineStr k v) := by
  cases v with
  | str s => rfl
  | num n => rfl
  | sym => exact absurd rfl h

/-- With only stringifiable values the declaration map succeeds with the
success-path lines. -/
theorem declLinesCore_ok (styles : List (String × JSValue))
    (h : ∀ kv ∈ styles, kv.2 ≠ JSValue.sym) :
    declLinesCore styles = Except.ok (styles.map fun kv => declLineStr kv.1 kv.2) := by
  induction styles with
  | nil => rfl
  | cons kv rest ih =>
      have h1 : kv.2 ≠ JSValue.sym := h kv (List.mem_cons_self kv rest)
      have h2 : ∀ kv' ∈ rest, kv'.2 ≠ JSValue.sym :=
        fun kv' hm => h kv' (List.mem_cons_of_mem kv hm)
      simp [declLinesCore, declLine_ok kv.1 kv.2 h1, ih h2]
      rfl

/-- With only stringifiable values one rule compiles to its success-path
block. -/
theorem ruleBlock_ok (r : StyleOverrideRule)
    (h : ∀ kv ∈ r.styles, kv.2 ≠ JSValue.sym) :
    ruleBlock r = Except.ok (ruleBlockStr r) := by
  simp [ruleBlock, declLinesCore_ok r.styles h, ruleBlockStr]

/-- With only stringifiable values the rule map succeeds with the
success-path blocks. -/
theorem ruleBlocksCore_ok (rules : List StyleOverrideRule)
    (h : ∀ r ∈ rules, ∀ kv ∈ r.styles, kv.2 ≠ JSValue.sym) :
    ruleBlocksCore rules = Except.ok (rules.map ruleBlockStr) := by
  induction rules with
  | nil => rfl
  | cons r rest ih =>
      have h1 := h r (List.mem_cons_self r rest)
      have h2 : ∀ r' ∈ rest, ∀ kv ∈ r'.styles, kv.2 ≠ JSValue.sym :=
        fun r' hm => h r' (List.mem_cons_of_mem r hm)
      simp [ruleBlocksCore, ruleBlock_ok r h1, ih h2]
      rfl

/-- With only stringifiable values generateStyleText is the blocks joined by
blank lines. -/
theorem generateStyleText_ok (rules : List StyleOverrideRule)
    (h : ∀ r ∈ rules, ∀ kv ∈ r.styles, kv.2 ≠ JSValue.sym) :
    generateStyleText rules = String.intercalate "\n\n" (rules.map ruleBlockStr) := by
  have hc : generateStyleTextCore rules
      = Except.ok (String.intercalate "\n\n" (rules.map ruleBlockStr)) := by
    simp [generateStyleTextCore, ruleBlocksCore_ok rules h]
  simp [generateStyleText, generateStyleTextLogged, hc]

/-- C1: while the rendering context exists, a changed external scroll
position is applied to the context's scroll offsets exactly when its absolute
difference with the current effective offset exceeds 2 units; in particular
position 101 arriving at a surface whose offset is 100 leaves the surface
unchanged. -/
theorem c1_scroll_applied_iff_beyond_dead_zone :
    (∀ (ctx : IframeDocState) (p : Nat),
        natAbsDiff (effectiveScrollTop ctx) p > 2 →
        watchScrollTop (some p) ⟨some ctx⟩
          = (⟨some { ctx with docScrollTop := p, bodyScrollTop := p }⟩, [p]))
  ∧ (∀ (ctx : IframeDocState) (p : Nat),
        natAbsDiff (effectiveScrollTop ctx) p ≤ 2 →
        watchScrollTop (some p) ⟨some ctx⟩ = (⟨some ctx⟩, []))
  ∧ watchScrollTop (some 101) ⟨some ⟨100, 100, none⟩⟩
      = (⟨some ⟨100, 100, none⟩⟩, []) :=
  ⟨fun ctx p h => watchScrollTop_write ctx p h,
   fun ctx p h => watchScrollTop_deadzone ctx p h,
   by decide⟩

theorem c1_scroll_applied_iff_beyond_dead_zone_witness :
    watchScrollTop (some 10) ⟨some ⟨0, 0, none⟩⟩ = (⟨some ⟨10, 10, none⟩⟩, [10])
  ∧ watchScrollTop (some 101) ⟨some ⟨100, 100, none⟩⟩
      = (⟨some ⟨100, 100, none⟩⟩, []) :=
  ⟨c1_scroll_applied_iff_beyond_dead_zone.1 ⟨0, 0, none⟩ 10 (by decide),
   c1_scroll_applied_iff_beyond_dead_zone.2.1 ⟨100, 100, none⟩ 101 (by decide)⟩

/-- C2: a broadcast position within the 2-unit dead zone of a surface's
current effective offset changes nothing and re-emits no scroll event, and
consequently a report→broadcast→report cycle between two surfaces reaches a
fixed point after one propagation round instead of oscillating. -/
theorem c2_dead_zone_suppresses_echo_and_converges :
    (∀ (s : RenderSurface) (ctx : IframeDocState) (p : Nat),
        s.context = some ctx →
        natAbsDiff (effectiveScrollTop ctx) p ≤ 2 →
        watchScrollTop (some p) s = (s, []))
  ∧ (∀ (ctxA ctxB : IframeDocState) (p n : Nat),
        effectiveScrollTop ctxA = p →
        syncRound (syncRound (reportScroll ⟨n, ⟨some ctxA⟩, ⟨some ctxB⟩⟩ p))
          = syncRound (reportScroll ⟨n, ⟨some ctxA⟩, ⟨some ctxB⟩⟩ p)) := by
  constructor
  · intro s ctx p hs h
    obtain ⟨o⟩ := s
    have ho : o = some ctx := hs
    subst ho
    exact watchScrollTop_deadzone ctx p h
  · intro ctxA ctxB p n hA
    exact syncRound_after_report ctxA ctxB p hA

theorem c2_dead_zone_suppresses_echo_and_converges_witness :
    watchScrollTop (some 101) ⟨some ⟨100, 0, none⟩⟩ = (⟨some ⟨100, 0, none⟩⟩, [])
  ∧ syncRound (syncRound (reportScroll ⟨0, ⟨some ⟨100, 0, none⟩⟩, ⟨some ⟨0, 0, none⟩⟩⟩ 100))
      = syncRound (reportScroll ⟨0, ⟨some ⟨100, 0, none⟩⟩, ⟨some ⟨0, 0, none⟩⟩⟩ 100) :=
  ⟨c2_dead_zone_suppresses_echo_and_converges.1
      ⟨some ⟨100, 0, none⟩⟩ ⟨100, 0, none⟩ 101 rfl (by decide),
   c2_dead_zone_suppresses_echo_and_converges.2
      ⟨100, 0, none⟩ ⟨0, 0, none⟩ 100 0 (by decide)⟩

/-- C3 (counterexample to the claim as stated): at document-level offset 1
and body-level offset 5 the scroll listener reports 1 — the `||`
short-circuit takes the document-level offset whenever it is nonzero — not
the maximum 5. -/
theorem c3_reported_scroll_counterexample :
    effectiveScrollTop ⟨1, 5, none⟩ = 1
  ∧ effectiveScrollTop ⟨1, 5, none⟩ ≠ max 1 5 := by
  decide

/-- C3 (amended): the reported position is the document-level offset when
that is nonzero and the body-level offset otherwise; it equals the larger of
the two offsets whenever at most one of them is nonzero. -/
theorem c3_reported_scroll_amended :
    ∀ (ctx : IframeDocState),
      ctx.docScrollTop = 0 ∨ ctx.bodyScrollTop = 0 →
      effectiveScrollTop ctx = max ctx.docScrollTop ctx.bodyScrollTop := by
  intro ctx h
  rcases h with h | h
  · simp [effectiveScrollTop, h]
  · simp only [effectiveScrollTop, h]
    split <;> omega

theorem c3_reported_scroll_amended_witness :
    effectiveScrollTop ⟨0, 7, none⟩ = max 0 7 :=
  c3_reported_scroll_amended ⟨0, 7, none⟩ (Or.inl rfl)

/-- C4 (counterexample to the claim as stated): changing the style-rule input
changes the full renderable payload at a concrete input — the payload embeds
the compiled style text, so it does not stay unchanged. -/
theorem c4_payload_counterexample :
    generateFullHtml [⟨"p", [("color", JSValue.str "red")]⟩] false "<p>x</p>"
      ≠ generateFullHtml [] false "<p>x</p>" := by
  decide

/-- C4 (amended): when the style input changes on an initialized context, the
designated style element's text is overwritten in place with the recompiled
text (scroll offsets untouched, nothing appended), while the renderable
payload is regenerated as well: it embeds the new compiled style text, the
rules enter the payload only through that style segment, and the document
content portion of the payload is unchanged. -/
theorem c4_style_update_in_place_payload_regenerated :
    (∀ (rules : List StyleOverrideRule) (s : RenderSurface) (ctx : IframeDocState),
        s.context = some ctx →
        updateIframeStyles rules s
          = ⟨some ⟨ctx.docScrollTop, ctx.bodyScrollTop, some (generateStyleText rules)⟩⟩)
  ∧ (∀ (rules : List StyleOverrideRule) (flag : Bool) (content : String),
        generateFullHtml rules flag content
          = htmlSeg1 ++ generateStyleText rules ++ htmlSeg2
              ++ (if flag then markerCss else "") ++ htmlSeg3 ++ content ++ htmlSeg4) := by
  constructor
  · intro rules s ctx hs
    obtain ⟨o⟩ := s
    have ho : o = some ctx := hs
    subst ho
    rfl
  · intro rules flag content
    rfl

theorem c4_style_update_in_place_payload_regenerated_witness :
    updateIframeStyles [] ⟨some ⟨3, 4, some "old"⟩⟩
      = ⟨some ⟨3, 4, some (generateStyleText [])⟩⟩ :=
  (c4_style_update_in_place_payload_regenerated.1 [] ⟨some ⟨3, 4, some "old"⟩⟩
    ⟨3, 4, some "old"⟩ rfl)

/-- C5: the style compiler is total: for every input — malformed values
included — it either returns the generated stylesheet text with no log
entry, or, when the generation body fails internally, logs the failure once
and returns the empty string; no exception reaches the caller. -/
theorem c5_compile_never_raises :
    ∀ (rules : List StyleOverrideRule),
      (∃ s, generateStyleTextCore rules = Except.ok s
          ∧ generateStyleTextLogged rules = (s, []))
    ∨ (∃ e, generateStyleTextCore rules = Except.error e
          ∧ generateStyleTextLogged rules
              = ("", ["Failed to generate style overrides: " ++ e])) := by
  intro rules
  cases h : generateStyleTextCore rules with
  | ok s => exact Or.inl ⟨s, rfl, by simp [generateStyleTextLogged, h]⟩
  | error e => exact Or.inr ⟨e, rfl, by simp [generateStyleTextLogged, h]⟩

/-- C6: the compiler is deterministic — the same rule sequence always yields
byte-identical text — and the empty rule sequence compiles to the empty
string. -/
theorem c6_compile_deterministic_and_empty :
    (∀ (rules : List StyleOverrideRule), generateStyleText rules = generateStyleText rules)
  ∧ generateStyleText [] = "" :=
  ⟨fun _ => rfl, by decide⟩

/-- C7: for rules whose declaration values all stringify, the compiler emits
per rule one block `selector {` … `}` whose lines are the declarations, each
property name hyphen-cased and each line suffixed ` !important;`; concretely
a backgroundColor: red declaration produces output containing the line
`background-color: red !important;`. -/
theorem c7_block_shape_and_normalization :
    ∀ (rules : List StyleOverrideRule),
      (∀ r ∈ rules, ∀ kv ∈ r.styles, kv.2 ≠ JSValue.sym) →
      generateStyleText rules = String.intercalate "\n\n" (rules.map ruleBlockStr)
    ∧ ∃ pre post,
        generateStyleText [⟨"p", [("backgroundColor", JSValue.str "red")]⟩]
          = pre ++ "background-color: red !important;" ++ post := by
  intro rules h
  exact ⟨generateStyleText_ok rules h, ⟨"p \x7b\n  ", "\n\x7d", by decide⟩⟩

theorem c7_block_shape_and_normalization_witness :
    generateStyleText [⟨"p", [("backgroundColor", JSValue.str "red")]⟩]
      = String.intercalate "\n\n"
          ([⟨"p", [("backgroundColor", JSValue.str "red")]⟩].map ruleBlockStr)
  ∧ ∃ pre post,
      generateStyleText [⟨"p", [("backgroundColor", JSValue.str "red")]⟩]
        = pre ++ "background-color: red !important;" ++ post :=
  c7_block_shape_and_normalization
    [⟨"p", [("backgroundColor", JSValue.str "red")]⟩] (by decide)

set_option maxHeartbeats 4000000 in
/-- C8: the renderable payload contains the modified-marker CSS block exactly
when showModifiedMarkers is true — structurally the marker slot holds
markerCss for true and the empty string for false — and concretely, for a
document carrying a marker attribute, the marker styling (its sandboxPulse
animation) occurs in the payload with the flag true and does not occur with
the flag false. -/
theorem c8_marker_css_iff_flag :
    (∀ (rules : List StyleOverrideRule) (content : String),
        generateFullHtml rules true content
          = htmlSeg1 ++ generateStyleText rules ++ htmlSeg2 ++ markerCss
              ++ htmlSeg3 ++ content ++ htmlSeg4
      ∧ generateFullHtml rules false content
          = htmlSeg1 ++ generateStyleText rules ++ htmlSeg2
              ++ htmlSeg3 ++ content ++ htmlSeg4)
  ∧ hasSubstr "sandboxPulse"
      (generateFullHtml [] true "<p data-sandbox-modified>x</p>") = true
  ∧ hasSubstr "sandboxPulse"
      (generateFullHtml [] false "<p data-sandbox-modified>x</p>") = false :=
  ⟨fun _ _ => ⟨rfl, by simp [generateFullHtml, String.append_empty]⟩,
   by decide, by decide⟩

/-- C9: applying an external scroll position before the rendering context
exists (before the iframe's load/ready signal) is a silent no-op: nothing is
raised, no state changes, nothing is emitted. -/
theorem c9_scroll_before_ready_noop :
    ∀ (newVal : Option Nat) (s : RenderSurface),
      s.context = none → watchScrollTop newVal s = (s, []) := by
  intro newVal s hs
  obtain ⟨o⟩ := s
  have ho : o = none := hs
  subst ho
  cases newVal <;> rfl

theorem c9_scroll_before_ready_noop_witness :
    watchScrollTop (some 50) ⟨none⟩ = (⟨none⟩, []) :=
  c9_scroll_before_ready_noop (some 50) ⟨none⟩ rfl

/-- C10: after any surface's report is processed by handleScroll, every
mounted surface — the reporter included, since both panels bind the same
sharedScrollTop and mounting is unaffected by the report — receives the
reported position as its external scroll input. -/
theorem c10_broadcast_includes_reporter :
    ∀ (st : StackState) (p : Nat),
      (∀ sid ∈ mountedSurfaces (handleScroll st p),
          scrollTopBinding (handleScroll st p) sid = p)
    ∧ (∀ src ∈ mountedSurfaces st, src ∈ mountedSurfaces (handleScroll st p)) := by
  intro st p
  exact ⟨fun _ _ => rfl, fun _ hm => hm⟩

theorem c10_broadcast_includes_reporter_witness :
    scrollTopBinding (handleScroll ⟨0, true⟩ 100) SurfaceId.renderBase = 100
  ∧ SurfaceId.renderBase ∈ mountedSurfaces (handleScroll ⟨0, true⟩ 100) :=
  ⟨(c10_broadcast_includes_reporter ⟨0, true⟩ 100).1 SurfaceId.renderBase (by decide),
   (c10_broadcast_includes_reporter ⟨0, true⟩ 100).2 SurfaceId.renderBase (by decide)⟩

end MdAi
